import Mathlib

/-!
Shallow embedding of the Proxima ledger engine (src/proxima/app.py).

Monetary values (Python floats) are modelled as rationals `ℚ`; quantities
(Python ints) as `ℤ`; dates as `Nat` day ordinals; nullable columns as
`Option`.  The database session state is a `State` record holding one list
per table; primary-key lookups (`Model.query.get_or_404`, joins on `id`)
are modelled with `List.find?` on the `id` field, matching the uniqueness
of primary keys.
-/

namespace Proxima

/-- Fixed global tax rate, `TVA_RATE = 0.20` in app.py. -/
def TVA_RATE : ℚ := 20 / 100

/-- Table `clients` (class Client). -/
structure Client where
  id : Nat
  nom_client : String
  tel : Option String
  adresse : Option String
  ville : Option String
deriving Repr, DecidableEq

/-- Table `products` (class Product); `ref_produit` carries a unique constraint. -/
structure Product where
  id : Nat
  ref_produit : String
  nom_produit : String
  prix_achat : ℚ
  prix_std : ℚ
deriving Repr, DecidableEq

/-- Table `stock_entries` (class StockEntry). -/
structure StockEntry where
  id : Nat
  product_id : Nat
  date : Nat
  qte_entree : ℤ
deriving Repr, DecidableEq

/-- Table `factures` (class Facture); `numero` carries a unique constraint,
`finalized` defaults to `false` on creation. -/
structure Facture where
  id : Nat
  numero : String
  date_vente : Nat
  client_id : Nat
  nbr_colis : ℤ
  finalized : Bool
deriving Repr, DecidableEq

/-- Table `invoice_lines` (class InvoiceLine). -/
structure InvoiceLine where
  id : Nat
  facture_id : Nat
  product_id : Nat
  prix_vnt : ℚ
  qte_vnd : ℤ
deriving Repr, DecidableEq

/-- Table `return_lines` (class ReturnLine). -/
structure ReturnLine where
  id : Nat
  facture_id : Nat
  product_id : Nat
  prix_vnt : ℚ
  qte_retour : ℤ
  date : Nat
deriving Repr, DecidableEq

/-- Table `payments` (class Payment); `numero` carries a unique constraint. -/
structure Payment where
  id : Nat
  numero : String
  client_id : Nat
  date_pymt : Nat
  montant_pymt : ℚ
  banque : Option String
  date_echeance : Option Nat
deriving Repr, DecidableEq

/-- Table `payment_applications` (class PaymentApplication). -/
structure PaymentApplication where
  id : Nat
  payment_id : Nat
  facture_id : Nat
  amount_applied : ℚ
deriving Repr, DecidableEq

/-- The committed database state: one list per table. -/
structure State where
  clients : List Client
  products : List Product
  stock_entries : List StockEntry
  factures : List Facture
  invoice_lines : List InvoiceLine
  return_lines : List ReturnLine
  payments : List Payment
  payment_applications : List PaymentApplication
deriving Repr, DecidableEq

/-- Primary-key lookup on `factures` (`Facture.id` is the primary key). -/
def findFacture (s : State) (fid : Nat) : Option Facture :=
  s.factures.find? (fun f => f.id == fid)

/-- Primary-key lookup on `clients`. -/
def findClient (s : State) (cid : Nat) : Option Client :=
  s.clients.find? (fun c => c.id == cid)

/-- Primary-key lookup on `products`. -/
def findProduct (s : State) (pid : Nat) : Option Product :=
  s.products.find? (fun p => p.id == pid)

/-- Primary-key lookup on `payments`. -/
def findPayment (s : State) (pid : Nat) : Option Payment :=
  s.payments.find? (fun p => p.id == pid)

/-- `InvoiceLine.total`: `prix_vnt * qte_vnd`. -/
def InvoiceLine.total (l : InvoiceLine) : ℚ := l.prix_vnt * (l.qte_vnd : ℚ)

/-- `ReturnLine.total`: `prix_vnt * qte_retour`. -/
def ReturnLine.total (r : ReturnLine) : ℚ := r.prix_vnt * (r.qte_retour : ℚ)

/-- The `lines` relationship of a Facture: invoice lines whose
`facture_id` matches. -/
def facture_lines (s : State) (f : Facture) : List InvoiceLine :=
  s.invoice_lines.filter (fun l => l.facture_id == f.id)

/-- The `returns` relationship of a Facture. -/
def facture_returns (s : State) (f : Facture) : List ReturnLine :=
  s.return_lines.filter (fun r => r.facture_id == f.id)

/-- `Facture.total_ht`: sum of `line.total()` over the invoice's lines. -/
def total_ht (s : State) (f : Facture) : ℚ :=
  ((facture_lines s f).map InvoiceLine.total).sum

/-- `Facture.total_tva`: `total_ht * tva_rate`. -/
def total_tva (s : State) (f : Facture) (tva_rate : ℚ) : ℚ :=
  total_ht s f * tva_rate

/-- `Facture.total_ttc`: `total_ht + total_tva`. -/
def total_ttc (s : State) (f : Facture) (tva_rate : ℚ) : ℚ :=
  total_ht s f + total_tva s f tva_rate

/-- Result record of `stock_summary_for_product`. -/
structure StockSummary where
  qte_entree : ℤ
  qte_vendue : ℤ
  stock_disponible : ℤ
deriving Repr, DecidableEq

/-- The `qin` aggregate of `stock_summary_for_product`: sum of
`StockEntry.qte_entree` over all stock entries of the product. -/
def qty_received (s : State) (prod_id : Nat) : ℤ :=
  ((s.stock_entries.filter (fun e => e.product_id == prod_id)).map
    (fun e => e.qte_entree)).sum

/-- The `qsold` aggregate: sum of `InvoiceLine.qte_vnd` over the product's
invoice lines joined to a finalized Facture. -/
def qty_sold_finalized (s : State) (prod_id : Nat) : ℤ :=
  ((s.invoice_lines.filter (fun l =>
      l.product_id == prod_id &&
        (match findFacture s l.facture_id with
         | some f => f.finalized
         | none => false))).map (fun l => l.qte_vnd)).sum

/-- The `qret` aggregate: sum of `ReturnLine.qte_retour` over all return
lines of the product, with no finalization filter. -/
def qty_returned (s : State) (prod_id : Nat) : ℤ :=
  ((s.return_lines.filter (fun r => r.product_id == prod_id)).map
    (fun r => r.qte_retour)).sum

/-- `stock_summary_for_product`: qty received (all stock entries for the
product), qty sold from finalized invoices only, qty returned (all return
lines for the product, no finalization filter); `qte_vendue` is floored at
zero, `stock_disponible` is not. -/
def stock_summary_for_product (s : State) (prod_id : Nat) : StockSummary :=
  { qte_entree := qty_received s prod_id
    qte_vendue := max (qty_sold_finalized s prod_id - qty_returned s prod_id) 0
    stock_disponible :=
      qty_received s prod_id - qty_sold_finalized s prod_id + qty_returned s prod_id }

/-- `invoice_totals_by_client`: sum of `total_ttc` over the client's
finalized invoices. -/
def invoice_totals_by_client (s : State) (client_id : Nat) : ℚ :=
  ((s.factures.filter (fun f => f.client_id == client_id && f.finalized)).map
    (fun f => total_ttc s f TVA_RATE)).sum

/-- `payments_applied_by_client`: sum of `amount_applied` over all payment
applications joined to a Facture of this client — with no filter on the
referenced invoice's `finalized` flag. -/
def payments_applied_by_client (s : State) (client_id : Nat) : ℚ :=
  ((s.payment_applications.filter (fun a =>
      match findFacture s a.facture_id with
      | some f => f.client_id == client_id
      | none => false)).map (fun a => a.amount_applied)).sum

/-- `client_balance`: invoiced (finalized) total minus applied total. -/
def client_balance (s : State) (client_id : Nat) : ℚ :=
  invoice_totals_by_client s client_id - payments_applied_by_client s client_id

/-- The `applications` relationship of a Payment. -/
def payment_applications_of (s : State) (p : Payment) : List PaymentApplication :=
  s.payment_applications.filter (fun a => a.payment_id == p.id)

/-- `applied = sum(a.amount_applied for a in pay.applications)` in
`payment_view`. -/
def payment_applied_total (s : State) (p : Payment) : ℚ :=
  ((payment_applications_of s p).map (fun a => a.amount_applied)).sum

/-- `remaining = pay.montant_pymt - applied` in `payment_view`. -/
def payment_remaining (s : State) (p : Payment) : ℚ :=
  p.montant_pymt - payment_applied_total s p

/-- The near-zero rounding in `payment_receipt`: the client balance is
replaced by `0` when its absolute value is below `1e-6`. -/
def payment_receipt_remaining (s : State) (pay : Payment) : ℚ :=
  let remaining_client := client_balance s pay.client_id
  if |remaining_client| < 1 / 1000000 then 0 else remaining_client

/-! ### Write operations (route handlers that mutate the database) -/

/-- Fresh surrogate key for an auto-increment column: one more than the
largest id in use. -/
def next_id (ids : List Nat) : Nat := ids.foldr max 0 + 1

def fresh_client_id (s : State) : Nat := next_id (s.clients.map (fun c => c.id))

def fresh_product_id (s : State) : Nat := next_id (s.products.map (fun p => p.id))

def fresh_stock_entry_id (s : State) : Nat :=
  next_id (s.stock_entries.map (fun e => e.id))

def fresh_facture_id (s : State) : Nat := next_id (s.factures.map (fun f => f.id))

def fresh_line_id (s : State) : Nat := next_id (s.invoice_lines.map (fun l => l.id))

def fresh_return_id (s : State) : Nat := next_id (s.return_lines.map (fun r => r.id))

def fresh_payment_id (s : State) : Nat := next_id (s.payments.map (fun p => p.id))

def fresh_application_id (s : State) : Nat :=
  next_id (s.payment_applications.map (fun a => a.id))

/-- Python's `str.strip()`: drop leading and trailing whitespace. -/
def pyStrip (str : String) : String :=
  ⟨((str.data.dropWhile Char.isWhitespace).reverse.dropWhile
      Char.isWhitespace).reverse⟩

/-- Form data of the `clients` POST route. -/
structure ClientForm where
  nom_client : String
  tel : Option String
  adresse : Option String
  ville : Option String
deriving Repr, DecidableEq

/-- `clients` POST: insert a new client (no uniqueness constraint). -/
def clients_post (s : State) (form : ClientForm) : State :=
  { s with clients := s.clients ++
      [{ id := fresh_client_id s, nom_client := form.nom_client,
         tel := form.tel, adresse := form.adresse, ville := form.ville }] }

/-- Form data of `client_update`; absent fields keep the stored value. -/
structure ClientUpdateForm where
  nom_client : Option String
  tel : Option String
  adresse : Option String
  ville : Option String
deriving Repr, DecidableEq

/-- `request.form.get(key, current)` for a nullable column. -/
def formPut (new : Option String) (cur : Option String) : Option String :=
  match new with
  | some v => some v
  | none => cur

/-- `client_update`: partial field update of the client with the given id. -/
def client_update (s : State) (client_id : Nat) (form : ClientUpdateForm) : State :=
  match findClient s client_id with
  | none => s
  | some c =>
    let c' : Client :=
      { c with
        nom_client := form.nom_client.getD c.nom_client
        tel := formPut form.tel c.tel
        adresse := formPut form.adresse c.adresse
        ville := formPut form.ville c.ville }
    { s with clients := s.clients.map (fun x => if x.id == client_id then c' else x) }

/-- Outcome of a guarded delete route: 404, guard rejection (state kept),
or successful deletion. -/
inductive DeleteOutcome where
  | notFound
  | rejected (s : State)
  | deleted (s : State)
deriving Repr, DecidableEq

/-- Resulting state of a delete route (`orig` when the id was not found). -/
def DeleteOutcome.state (o : DeleteOutcome) (orig : State) : State :=
  match o with
  | .notFound => orig
  | .rejected s => s
  | .deleted s => s

/-- `client_delete`: rejected while any Facture or Payment references the
client; otherwise the client row is removed. -/
def client_delete (s : State) (client_id : Nat) : DeleteOutcome :=
  match findClient s client_id with
  | none => .notFound
  | some c =>
    let factures_count := (s.factures.filter (fun f => f.client_id == c.id)).length
    let payments_count := (s.payments.filter (fun p => p.client_id == c.id)).length
    if factures_count != 0 || payments_count != 0 then
      .rejected s
    else
      .deleted { s with clients := s.clients.filter (fun x => x.id != c.id) }

/-- Form data of the `products` POST route; `qte_entree` defaults to 0 when
the field is absent or empty, `date_entry` is optional. -/
structure ProductForm where
  ref_produit : String
  nom_produit : String
  prix_achat : ℚ
  prix_std : ℚ
  qte_entree : ℤ
  date_entry : Option Nat
deriving Repr, DecidableEq

/-- `products` POST: insert a product (rolled back in full on a duplicate
`ref_produit`); then, when `qte_entree > 0`, insert one StockEntry for the
new product, dated `date_entry` or today. Returns the new state and whether
the product write committed. -/
def products_post (s : State) (form : ProductForm) (today : Nat) : State × Bool :=
  let ref := pyStrip form.ref_produit
  if s.products.any (fun p => p.ref_produit == ref) then
    (s, false)
  else
    let pid := fresh_product_id s
    let p : Product :=
      { id := pid, ref_produit := ref, nom_produit := pyStrip form.nom_produit,
        prix_achat := form.prix_achat, prix_std := form.prix_std }
    let s1 := { s with products := s.products ++ [p] }
    if form.qte_entree > 0 then
      let entry : StockEntry :=
        { id := fresh_stock_entry_id s1, product_id := pid,
          date := form.date_entry.getD today, qte_entree := form.qte_entree }
      ({ s1 with stock_entries := s1.stock_entries ++ [entry] }, true)
    else
      (s1, true)

/-- Form data of `product_update`; absent fields keep the stored value. -/
structure ProductUpdateForm where
  ref_produit : Option String
  nom_produit : Option String
  prix_achat : Option ℚ
  prix_std : Option ℚ
deriving Repr, DecidableEq

/-- `product_update`: partial update, rolled back on a duplicate
`ref_produit`. -/
def product_update (s : State) (product_id : Nat) (form : ProductUpdateForm) :
    State × Bool :=
  match findProduct s product_id with
  | none => (s, false)
  | some p =>
    let new_ref := pyStrip (form.ref_produit.getD p.ref_produit)
    if s.products.any (fun q => q.id != product_id && q.ref_produit == new_ref) then
      (s, false)
    else
      let p' : Product :=
        { p with
          ref_produit := new_ref
          nom_produit := form.nom_produit.getD p.nom_produit
          prix_achat := form.prix_achat.getD p.prix_achat
          prix_std := form.prix_std.getD p.prix_std }
      ({ s with products := s.products.map (fun x => if x.id == product_id then p' else x) },
       true)

/-- `product_delete`: rejected while any InvoiceLine or StockEntry
references the product; otherwise the product row is removed. -/
def product_delete (s : State) (product_id : Nat) : DeleteOutcome :=
  match findProduct s product_id with
  | none => .notFound
  | some p =>
    let used_lines := (s.invoice_lines.filter (fun l => l.product_id == p.id)).length
    let has_entries := (s.stock_entries.filter (fun e => e.product_id == p.id)).length
    if used_lines != 0 || has_entries != 0 then
      .rejected s
    else
      .deleted { s with products := s.products.filter (fun x => x.id != p.id) }

/-- Form data of the `stock_entry` POST route. -/
structure StockEntryForm where
  product_id : Nat
  date : Nat
  qte_entree : ℤ
deriving Repr, DecidableEq

/-- `stock_entry` POST: insert a stock entry unconditionally. -/
def stock_entry_post (s : State) (form : StockEntryForm) : State :=
  { s with stock_entries := s.stock_entries ++
      [{ id := fresh_stock_entry_id s, product_id := form.product_id,
         date := form.date, qte_entree := form.qte_entree }] }

/-- Form data of the `invoice_new` POST route. -/
structure InvoiceForm where
  numero : String
  date_vente : Nat
  client_id : Nat
  nbr_colis : ℤ
deriving Repr, DecidableEq

/-- `invoice_new` POST: insert a draft invoice (`finalized = false`),
rolled back in full on a duplicate `numero`. -/
def invoice_new_post (s : State) (form : InvoiceForm) : State × Bool :=
  let numero := pyStrip form.numero
  if s.factures.any (fun f => f.numero == numero) then
    (s, false)
  else
    ({ s with factures := s.factures ++
        [{ id := fresh_facture_id s, numero := numero,
           date_vente := form.date_vente, client_id := form.client_id,
           nbr_colis := form.nbr_colis, finalized := false }] },
     true)

/-- Form data of `invoice_update`; absent fields keep the stored value. -/
structure InvoiceUpdateForm where
  numero : Option String
  date_vente : Option Nat
  client_id : Option Nat
  nbr_colis : Option ℤ
deriving Repr, DecidableEq

/-- `invoice_update`: partial update of number / date / client / package
count (never `finalized`), rolled back on a duplicate `numero`. -/
def invoice_update (s : State) (invoice_id : Nat) (form : InvoiceUpdateForm) :
    State × Bool :=
  match findFacture s invoice_id with
  | none => (s, false)
  | some inv =>
    let numero := pyStrip (form.numero.getD inv.numero)
    if s.factures.any (fun g => g.id != invoice_id && g.numero == numero) then
      (s, false)
    else
      let inv' : Facture :=
        { inv with
          numero := numero
          date_vente := form.date_vente.getD inv.date_vente
          client_id := form.client_id.getD inv.client_id
          nbr_colis := form.nbr_colis.getD inv.nbr_colis }
      ({ s with factures := s.factures.map (fun x => if x.id == invoice_id then inv' else x) },
       true)

/-- `invoice_delete`: rejected while any PaymentApplication references the
invoice; otherwise the invoice row is removed and its InvoiceLines and
ReturnLines are cascade-deleted. -/
def invoice_delete (s : State) (invoice_id : Nat) : DeleteOutcome :=
  match findFacture s invoice_id with
  | none => .notFound
  | some inv =>
    let apps := (s.payment_applications.filter (fun a => a.facture_id == inv.id)).length
    if apps != 0 then
      .rejected s
    else
      .deleted
        { s with
          factures := s.factures.filter (fun x => x.id != inv.id)
          invoice_lines := s.invoice_lines.filter (fun l => l.facture_id != inv.id)
          return_lines := s.return_lines.filter (fun r => r.facture_id != inv.id) }

/-- `invoice_toggle_finalize`: flip the `finalized` flag of the invoice
with the given id; `none` models the 404 on a missing id. -/
def invoice_toggle_finalize (s : State) (invoice_id : Nat) : Option State :=
  match findFacture s invoice_id with
  | none => none
  | some _ =>
    some { s with factures := s.factures.map (fun f =>
        if f.id == invoice_id then { f with finalized := !f.finalized } else f) }

/-- `invoice_finalize`: set the `finalized` flag of the invoice to `true`. -/
def invoice_finalize (s : State) (invoice_id : Nat) : Option State :=
  match findFacture s invoice_id with
  | none => none
  | some _ =>
    some { s with factures := s.factures.map (fun f =>
        if f.id == invoice_id then { f with finalized := true } else f) }

/-- Form data of `invoice_add_line`. -/
structure LineForm where
  product_id : Nat
  prix_vnt : ℚ
  qte_vnd : ℤ
deriving Repr, DecidableEq

/-- `invoice_add_line`: insert an InvoiceLine on the given invoice. -/
def invoice_add_line (s : State) (invoice_id : Nat) (form : LineForm) : State :=
  match findFacture s invoice_id with
  | none => s
  | some inv =>
    { s with invoice_lines := s.invoice_lines ++
        [{ id := fresh_line_id s, facture_id := inv.id,
           product_id := form.product_id, prix_vnt := form.prix_vnt,
           qte_vnd := form.qte_vnd }] }

/-- Form data of `invoice_add_return`. -/
structure ReturnForm where
  product_id : Nat
  prix_vnt : ℚ
  qte_retour : ℤ
  date : Nat
deriving Repr, DecidableEq

/-- `invoice_add_return`: insert a ReturnLine on the given invoice. -/
def invoice_add_return (s : State) (invoice_id : Nat) (form : ReturnForm) : State :=
  match findFacture s invoice_id with
  | none => s
  | some inv =>
    { s with return_lines := s.return_lines ++
        [{ id := fresh_return_id s, facture_id := inv.id,
           product_id := form.product_id, prix_vnt := form.prix_vnt,
           qte_retour := form.qte_retour, date := form.date }] }

/-- Form data of the `payment_new` POST route. -/
structure PaymentForm where
  numero : String
  client_id : Nat
  date_pymt : Nat
  montant_pymt : ℚ
  banque : Option String
  date_echeance : Option Nat
deriving Repr, DecidableEq

/-- `payment_new` POST: insert a payment, rolled back in full on a
duplicate `numero`. -/
def payment_new_post (s : State) (form : PaymentForm) : State × Bool :=
  if s.payments.any (fun p => p.numero == form.numero) then
    (s, false)
  else
    ({ s with payments := s.payments ++
        [{ id := fresh_payment_id s, numero := form.numero,
           client_id := form.client_id, date_pymt := form.date_pymt,
           montant_pymt := form.montant_pymt, banque := form.banque,
           date_echeance := form.date_echeance }] },
     true)

/-- Form data of the `payment_view` POST (apply payment to invoice). -/
structure ApplicationForm where
  invoice_id : Nat
  amount_applied : ℚ
deriving Repr, DecidableEq

/-- `payment_view` POST: insert a PaymentApplication for the payment. -/
def payment_apply (s : State) (payment_id : Nat) (form : ApplicationForm) : State :=
  match findPayment s payment_id with
  | none => s
  | some pay =>
    { s with payment_applications := s.payment_applications ++
        [{ id := fresh_application_id s, payment_id := pay.id,
           facture_id := form.invoice_id, amount_applied := form.amount_applied }] }

/-- Every state-mutating route handler of the application. -/
inductive Action where
  | clientsPost (form : ClientForm)
  | clientUpdate (client_id : Nat) (form : ClientUpdateForm)
  | clientDelete (client_id : Nat)
  | productsPost (form : ProductForm) (today : Nat)
  | productUpdate (product_id : Nat) (form : ProductUpdateForm)
  | productDelete (product_id : Nat)
  | stockEntryPost (form : StockEntryForm)
  | invoiceNew (form : InvoiceForm)
  | invoiceUpdate (invoice_id : Nat) (form : InvoiceUpdateForm)
  | invoiceDelete (invoice_id : Nat)
  | invoiceToggleFinalize (invoice_id : Nat)
  | invoiceAddLine (invoice_id : Nat) (form : LineForm)
  | invoiceAddReturn (invoice_id : Nat) (form : ReturnForm)
  | invoiceFinalizeAct (invoice_id : Nat)
  | paymentNew (form : PaymentForm)
  | paymentApply (payment_id : Nat) (form : ApplicationForm)
deriving Repr, DecidableEq

/-- The two routes that explicitly set the finalization flag. -/
def is_explicit_finalize : Action → Bool
  | .invoiceToggleFinalize _ => true
  | .invoiceFinalizeAct _ => true
  | _ => false

/-- Resulting committed state of each route handler (a 404 or a rolled-back
write leaves the state unchanged). -/
def apply_action (s : State) (a : Action) : State :=
  match a with
  | .clientsPost form => clients_post s form
  | .clientUpdate cid form => client_update s cid form
  | .clientDelete cid => (client_delete s cid).state s
  | .productsPost form today => (products_post s form today).1
  | .productUpdate pid form => (product_update s pid form).1
  | .productDelete pid => (product_delete s pid).state s
  | .stockEntryPost form => stock_entry_post s form
  | .invoiceNew form => (invoice_new_post s form).1
  | .invoiceUpdate iid form => (invoice_update s iid form).1
  | .invoiceDelete iid => (invoice_delete s iid).state s
  | .invoiceToggleFinalize iid => (invoice_toggle_finalize s iid).getD s
  | .invoiceAddLine iid form => invoice_add_line s iid form
  | .invoiceAddReturn iid form => invoice_add_return s iid form
  | .invoiceFinalizeAct iid => (invoice_finalize s iid).getD s
  | .paymentNew form => (payment_new_post s form).1
  | .paymentApply pid form => payment_apply s pid form

/-! ### General lemmas about list aggregation -/

/-- Summing a function over a filtered list equals summing the function
guarded by the filter predicate over the whole list. -/
theorem sum_map_filter {α M : Type} [AddCommMonoid M] (l : List α) (p : α → Bool)
    (f : α → M) :
    ((l.filter p).map f).sum = (l.map (fun x => if p x then f x else 0)).sum := by
  induction l with
  | nil => rfl
  | cons a t ih =>
    cases hpa : p a <;> simp [List.filter_cons, hpa, ih]

/-- A filter over a list on which the predicate never holds is empty. -/
theorem filter_eq_nil_of_none {α : Type} (l : List α) (p : α → Bool)
    (h : ∀ x ∈ l, p x = false) : l.filter p = [] := by
  induction l with
  | nil => rfl
  | cons a t ih =>
    simp [List.filter_cons, h a (List.mem_cons_self a t),
      ih (fun x hx => h x (List.mem_cons_of_mem a hx))]

/-- The `COUNT(*) != 0` test of the delete guards agrees with `any`. -/
theorem length_filter_ne_zero_eq_any {α : Type} (l : List α) (p : α → Bool) :
    ((l.filter p).length != 0) = l.any p := by
  induction l with
  | nil => rfl
  | cons a t ih => cases hpa : p a <;> simp [List.filter_cons, hpa, ih]

/-! ### Primary-key uniqueness and freshness -/

/-- Two rows of a facture table whose primary keys are pairwise distinct
and whose ids agree are the same row. -/
theorem facture_eq_of_id_eq {l : List Facture}
    (hnd : (l.map Facture.id).Nodup) {f g : Facture}
    (hf : f ∈ l) (hg : g ∈ l) (hid : g.id = f.id) : g = f :=
  List.inj_on_of_nodup_map hnd hg hf hid

/-- Every member of a list of naturals is bounded by `foldr max 0`. -/
theorem le_foldr_max {l : List Nat} {x : Nat} (hx : x ∈ l) :
    x ≤ l.foldr max 0 := by
  induction l with
  | nil => cases hx
  | cons a t ih =>
    rcases List.mem_cons.mp hx with h | h
    · subst h; exact le_max_left _ _
    · exact le_trans (ih h) (le_max_right _ _)

/-! ### Frame lemmas: which operations leave the facture table unchanged -/

theorem clients_post_factures (s : State) (form : ClientForm) :
    (clients_post s form).factures = s.factures := rfl

theorem client_update_factures (s : State) (cid : Nat) (form : ClientUpdateForm) :
    (client_update s cid form).factures = s.factures := by
  unfold client_update; split <;> rfl

theorem client_delete_factures (s : State) (cid : Nat) :
    ((client_delete s cid).state s).factures = s.factures := by
  unfold client_delete
  split
  · rfl
  · dsimp only
    split <;> rfl

theorem products_post_factures (s : State) (form : ProductForm) (today : Nat) :
    (products_post s form today).1.factures = s.factures := by
  unfold products_post
  dsimp only
  split
  · rfl
  · split <;> rfl

theorem product_update_factures (s : State) (pid : Nat) (form : ProductUpdateForm) :
    (product_update s pid form).1.factures = s.factures := by
  unfold product_update
  split
  · rfl
  · dsimp only
    split <;> rfl

theorem product_delete_factures (s : State) (pid : Nat) :
    ((product_delete s pid).state s).factures = s.factures := by
  unfold product_delete
  split
  · rfl
  · dsimp only
    split <;> rfl

theorem stock_entry_post_factures (s : State) (form : StockEntryForm) :
    (stock_entry_post s form).factures = s.factures := rfl

theorem invoice_add_line_factures (s : State) (iid : Nat) (form : LineForm) :
    (invoice_add_line s iid form).factures = s.factures := by
  unfold invoice_add_line; split <;> rfl

theorem invoice_add_return_factures (s : State) (iid : Nat) (form : ReturnForm) :
    (invoice_add_return s iid form).factures = s.factures := by
  unfold invoice_add_return; split <;> rfl

theorem payment_new_post_factures (s : State) (form : PaymentForm) :
    (payment_new_post s form).1.factures = s.factures := by
  unfold payment_new_post; split <;> rfl

theorem payment_apply_factures (s : State) (pid : Nat) (form : ApplicationForm) :
    (payment_apply s pid form).factures = s.factures := by
  unfold payment_apply; split <;> rfl

/-- In a table with pairwise-distinct primary keys, a row of the table
agreeing in id with `f` has `f`'s finalization flag. -/
theorem flag_of_mem_same {s : State} (hnd : (s.factures.map Facture.id).Nodup)
    {f f' : Facture} (hf : f ∈ s.factures) (hf' : f' ∈ s.factures)
    (hid : f'.id = f.id) : f'.finalized = f.finalized :=
  congrArg Facture.finalized (facture_eq_of_id_eq hnd hf hf' hid)

/-- `invoice_new_post` preserves the finalization flag of every surviving
invoice: the inserted row has a fresh id. -/
theorem invoice_new_post_flag (s : State) (form : InvoiceForm)
    (hnd : (s.factures.map Facture.id).Nodup) {f f' : Facture}
    (hf : f ∈ s.factures) (hf' : f' ∈ (invoice_new_post s form).1.factures)
    (hid : f'.id = f.id) : f'.finalized = f.finalized := by
  unfold invoice_new_post at hf'
  dsimp only at hf'
  split at hf'
  · exact flag_of_mem_same hnd hf hf' hid
  · rcases List.mem_append.mp hf' with h | h
    · exact flag_of_mem_same hnd hf h hid
    · exfalso
      have hnew := List.mem_singleton.mp h
      have h1 : f.id ≤ (s.factures.map Facture.id).foldr max 0 :=
        le_foldr_max (List.mem_map_of_mem Facture.id hf)
      have h2 : f'.id = (s.factures.map Facture.id).foldr max 0 + 1 := by
        rw [hnew]; rfl
      omega

/-- `invoice_update` preserves the finalization flag of every invoice:
the updated row keeps its id and its flag. -/
theorem invoice_update_flag (s : State) (iid : Nat) (form : InvoiceUpdateForm)
    (hnd : (s.factures.map Facture.id).Nodup) {f f' : Facture}
    (hf : f ∈ s.factures) (hf' : f' ∈ (invoice_update s iid form).1.factures)
    (hid : f'.id = f.id) : f'.finalized = f.finalized := by
  unfold invoice_update at hf'
  split at hf'
  · exact flag_of_mem_same hnd hf hf' hid
  · rename_i inv heq
    dsimp only at hf'
    split at hf'
    · exact flag_of_mem_same hnd hf hf' hid
    · rcases List.mem_map.mp hf' with ⟨x, hx, hgx⟩
      by_cases hxid : (x.id == iid) = true
      · rw [if_pos hxid] at hgx
        have hinvmem : inv ∈ s.factures := List.mem_of_find?_eq_some heq
        have hfid : f'.id = inv.id := by rw [← hgx]
        have hfeq : inv = f := facture_eq_of_id_eq hnd hf hinvmem (by rw [← hfid, hid])
        rw [← hgx]
        show inv.finalized = f.finalized
        rw [hfeq]
      · rw [if_neg hxid] at hgx
        subst hgx
        exact flag_of_mem_same hnd hf hx hid

/-- Every invoice surviving `invoice_delete` was already in the table. -/
theorem invoice_delete_mem (s : State) (iid : Nat) {f' : Facture}
    (hf' : f' ∈ ((invoice_delete s iid).state s).factures) : f' ∈ s.factures := by
  unfold invoice_delete at hf'
  split at hf'
  · exact hf'
  · dsimp only at hf'
    split at hf'
    · exact hf'
    · exact List.mem_of_mem_filter hf'

/-! ### Concrete states used by the closed witness theorems -/

/-- A database with no rows. -/
def emptyState : State :=
  { clients := [], products := [], stock_entries := [], factures := [],
    invoice_lines := [], return_lines := [], payments := [],
    payment_applications := [] }

/-- A small populated database: one client, one product, two invoices for
the client (invoice 1 finalized with two lines, invoice 2 a draft with no
lines), one payment of 200 with 50 applied to invoice 1. -/
def sampleState : State :=
  { clients := [{ id := 1, nom_client := "C", tel := none, adresse := none,
                  ville := none }]
    products := [{ id := 1, ref_produit := "P", nom_produit := "Prod",
                   prix_achat := 5, prix_std := 10 }]
    stock_entries := [{ id := 1, product_id := 1, date := 0, qte_entree := 100 }]
    factures := [{ id := 1, numero := "F1", date_vente := 0, client_id := 1,
                   nbr_colis := 0, finalized := true },
                 { id := 2, numero := "F2", date_vente := 0, client_id := 1,
                   nbr_colis := 0, finalized := false }]
    invoice_lines := [{ id := 1, facture_id := 1, product_id := 1,
                        prix_vnt := 10, qte_vnd := 2 },
                      { id := 2, facture_id := 1, product_id := 1,
                        prix_vnt := 5, qte_vnd := 3 }]
    return_lines := []
    payments := [{ id := 1, numero := "PM1", client_id := 1, date_pymt := 0,
                   montant_pymt := 200, banque := none, date_echeance := none }]
    payment_applications := [{ id := 1, payment_id := 1, facture_id := 1,
                               amount_applied := 50 }] }

/-! ### Claim theorems -/

/-- C1: the client balance is the sum of `total_ttc` over the client's
finalized invoices minus the sum of `amount_applied` over all payment
applications whose referenced invoice belongs to the client, with no
finalization filter on the subtracted side; consequently a payment
application on a non-finalized invoice of the client still reduces the
balance by its amount. -/
theorem client_balance_spec (s : State) (cid : Nat) :
    (client_balance s cid =
      (s.factures.map (fun f =>
        if f.client_id == cid && f.finalized then total_ttc s f TVA_RATE else 0)).sum
      - (s.payment_applications.map (fun a =>
          if (match findFacture s a.facture_id with
              | some f => f.client_id == cid
              | none => false) then a.amount_applied else 0)).sum)
    ∧ ∀ (a : PaymentApplication) (f : Facture),
        findFacture s a.facture_id = some f → f.client_id = cid →
        f.finalized = false →
        client_balance
            { s with payment_applications := s.payment_applications ++ [a] } cid
          = client_balance s cid - a.amount_applied := by
  constructor
  · unfold client_balance invoice_totals_by_client payments_applied_by_client
    rw [sum_map_filter, sum_map_filter]
  · intro a f hfind hcid _
    have htot : invoice_totals_by_client
        { s with payment_applications := s.payment_applications ++ [a] } cid
        = invoice_totals_by_client s cid := rfl
    have hpa : (match findFacture s a.facture_id with
        | some g => g.client_id == cid
        | none => false) = true := by
      rw [hfind]; simp [hcid]
    have hstate : findFacture
        { s with payment_applications := s.payment_applications ++ [a] }
        = findFacture s := rfl
    have hpay : payments_applied_by_client
        { s with payment_applications := s.payment_applications ++ [a] } cid
        = payments_applied_by_client s cid + a.amount_applied := by
      unfold payments_applied_by_client
      simp only [hstate]
      rw [List.filter_append, List.map_append, List.sum_append]
      simp [List.filter_cons, hpa]
    unfold client_balance
    rw [htot, hpay]; ring

/-- C1 witness: in `sampleState` (client 1, invoice 2 non-finalized),
appending an application of 7 on invoice 2 lowers the balance by 7. -/
theorem client_balance_spec_witness :
    client_balance
        { sampleState with payment_applications :=
            sampleState.payment_applications ++
              [{ id := 2, payment_id := 1, facture_id := 2, amount_applied := 7 }] } 1
      = client_balance sampleState 1 - 7 :=
  (client_balance_spec sampleState 1).2
    { id := 2, payment_id := 1, facture_id := 2, amount_applied := 7 }
    { id := 2, numero := "F2", date_vente := 0, client_id := 1, nbr_colis := 0,
      finalized := false }
    (by decide) rfl rfl

/-- C2: the stock summary returns the sum of stock-entry quantities, the
floored net sold quantity `max (sold − returned) 0` where sold counts only
finalized invoices and returned counts all return lines, and the available
quantity `received − sold + returned`, which is not floored and can be
negative. -/
theorem stock_summary_spec (s : State) (pid : Nat) :
    ((stock_summary_for_product s pid).qte_entree =
        (s.stock_entries.map (fun e =>
          if e.product_id == pid then e.qte_entree else 0)).sum
    ∧ (stock_summary_for_product s pid).qte_vendue =
        max ((s.invoice_lines.map (fun l =>
                if l.product_id == pid &&
                    (match findFacture s l.facture_id with
                     | some f => f.finalized
                     | none => false) then l.qte_vnd else 0)).sum
             - (s.return_lines.map (fun r =>
                  if r.product_id == pid then r.qte_retour else 0)).sum) 0
    ∧ (stock_summary_for_product s pid).stock_disponible =
        (s.stock_entries.map (fun e =>
          if e.product_id == pid then e.qte_entree else 0)).sum
        - (s.invoice_lines.map (fun l =>
            if l.product_id == pid &&
                (match findFacture s l.facture_id with
                 | some f => f.finalized
                 | none => false) then l.qte_vnd else 0)).sum
        + (s.return_lines.map (fun r =>
            if r.product_id == pid then r.qte_retour else 0)).sum)
    ∧ ∃ (s0 : State) (p0 : Nat),
        (stock_summary_for_product s0 p0).stock_disponible < 0 := by
  refine ⟨⟨?_, ?_, ?_⟩, ?_⟩
  · unfold stock_summary_for_product qty_received
    rw [sum_map_filter]
  · unfold stock_summary_for_product qty_sold_finalized qty_returned
    rw [sum_map_filter, sum_map_filter]
  · unfold stock_summary_for_product qty_received qty_sold_finalized qty_returned
    rw [sum_map_filter, sum_map_filter, sum_map_filter]
  · exact ⟨{ clients := [], products := [], stock_entries := [],
             factures := [{ id := 1, numero := "F1", date_vente := 0,
                            client_id := 1, nbr_colis := 0, finalized := true }],
             invoice_lines := [{ id := 1, facture_id := 1, product_id := 1,
                                 prix_vnt := 0, qte_vnd := 1 }],
             return_lines := [], payments := [], payment_applications := [] },
           1, by decide⟩

/-- C3: invoice totals sum unit price times quantity over InvoiceLines
only (replacing the return lines changes nothing), `total_tva` is
`total_ht * 0.20`, `total_ttc` is their sum, and an invoice with no lines
has all three totals zero; the computations are pure functions of the
state. -/
theorem facture_totals_spec (s : State) (f : Facture) :
    (total_ht s f =
      (s.invoice_lines.map (fun l =>
        if l.facture_id == f.id then l.prix_vnt * (l.qte_vnd : ℚ) else 0)).sum)
    ∧ total_tva s f TVA_RATE = total_ht s f * (20 / 100)
    ∧ total_ttc s f TVA_RATE = total_ht s f + total_tva s f TVA_RATE
    ∧ (∀ rls : List ReturnLine,
        total_ttc { s with return_lines := rls } f TVA_RATE = total_ttc s f TVA_RATE)
    ∧ (facture_lines s f = [] →
        total_ht s f = 0 ∧ total_tva s f TVA_RATE = 0 ∧ total_ttc s f TVA_RATE = 0) := by
  refine ⟨?_, rfl, rfl, fun rls => rfl, ?_⟩
  · unfold total_ht facture_lines
    rw [sum_map_filter]
    simp [InvoiceLine.total]
  · intro h
    have h0 : total_ht s f = 0 := by
      unfold total_ht; rw [h]; rfl
    refine ⟨h0, ?_, ?_⟩
    · unfold total_tva; rw [h0]; ring
    · unfold total_ttc total_tva; rw [h0]; ring

/-- C3 witness: invoice 2 of `sampleState` has no lines, so its totals are
all zero. -/
theorem facture_totals_spec_witness :
    total_ht sampleState
        { id := 2, numero := "F2", date_vente := 0, client_id := 1,
          nbr_colis := 0, finalized := false } = 0
    ∧ total_tva sampleState
        { id := 2, numero := "F2", date_vente := 0, client_id := 1,
          nbr_colis := 0, finalized := false } TVA_RATE = 0
    ∧ total_ttc sampleState
        { id := 2, numero := "F2", date_vente := 0, client_id := 1,
          nbr_colis := 0, finalized := false } TVA_RATE = 0 :=
  (facture_totals_spec sampleState
      { id := 2, numero := "F2", date_vente := 0, client_id := 1,
        nbr_colis := 0, finalized := false }).2.2.2.2 (by decide)

/-- C4: a payment's remaining balance equals its amount minus the sum of
its applications' amounts, with no clamping: when the applied total
exceeds the amount, the remaining balance is negative. -/
theorem payment_remaining_spec (s : State) (p : Payment) :
    (payment_remaining s p =
      p.montant_pymt - (s.payment_applications.map (fun a =>
        if a.payment_id == p.id then a.amount_applied else 0)).sum)
    ∧ (payment_applied_total s p > p.montant_pymt → payment_remaining s p < 0) := by
  constructor
  · unfold payment_remaining payment_applied_total payment_applications_of
    rw [sum_map_filter]
  · intro h
    unfold payment_remaining
    linarith

/-- The payment of `sampleState` together with an over-applied state:
applications of 150 and 60 against a payment amount of 200. -/
def overAppliedState : State :=
  { sampleState with payment_applications :=
      [{ id := 1, payment_id := 1, facture_id := 1, amount_applied := 150 },
       { id := 2, payment_id := 1, facture_id := 1, amount_applied := 60 }] }

/-- The payment row of `sampleState` (amount 200). -/
def samplePayment : Payment :=
  { id := 1, numero := "PM1", client_id := 1, date_pymt := 0,
    montant_pymt := 200, banque := none, date_echeance := none }

/-- C4 witness: a payment of 200 with applications of 150 and 60 is
over-applied and its remaining balance is negative. -/
theorem payment_remaining_spec_witness :
    payment_applied_total overAppliedState samplePayment
      > samplePayment.montant_pymt
    ∧ payment_remaining overAppliedState samplePayment < 0 :=
  ⟨by norm_num [payment_applied_total, payment_applications_of, overAppliedState,
      sampleState, samplePayment],
   (payment_remaining_spec overAppliedState samplePayment).2
     (by norm_num [payment_applied_total, payment_applications_of, overAppliedState,
        sampleState, samplePayment])⟩

/-- C8: the payment receipt computes the paying client's balance and
replaces it with exactly 0 when its absolute value is strictly below
`1e-6`; otherwise it passes the balance through unchanged. -/
theorem payment_receipt_epsilon_spec (s : State) (pay : Payment) :
    (|client_balance s pay.client_id| < 1 / 1000000 →
      payment_receipt_remaining s pay = 0)
    ∧ (¬ |client_balance s pay.client_id| < 1 / 1000000 →
      payment_receipt_remaining s pay = client_balance s pay.client_id) := by
  constructor <;> intro h
  · show (if |client_balance s pay.client_id| < 1 / 1000000 then (0 : ℚ)
        else client_balance s pay.client_id) = 0
    rw [if_pos h]
  · show (if |client_balance s pay.client_id| < 1 / 1000000 then (0 : ℚ)
        else client_balance s pay.client_id) = client_balance s pay.client_id
    rw [if_neg h]

/-- C8 witness: with no data the balance is 0 and is reported as 0; in
`sampleState` the balance is −8, far from 0, and is passed through. -/
theorem payment_receipt_epsilon_spec_witness :
    payment_receipt_remaining emptyState samplePayment = 0
    ∧ payment_receipt_remaining sampleState samplePayment
        = client_balance sampleState 1 :=
  ⟨(payment_receipt_epsilon_spec emptyState samplePayment).1
     (by norm_num [client_balance, invoice_totals_by_client,
        payments_applied_by_client, emptyState, samplePayment]),
   (payment_receipt_epsilon_spec sampleState samplePayment).2
     (by norm_num [client_balance, invoice_totals_by_client,
        payments_applied_by_client, total_ttc, total_tva, total_ht,
        facture_lines, InvoiceLine.total, findFacture, sampleState,
        samplePayment, TVA_RATE, List.filter_cons, List.find?])⟩

/-- C10: for a product identifier with no associated stock entries,
invoice lines or return lines (in particular an unknown identifier), the
stock summary is total and returns the all-zero record. -/
theorem stock_summary_unknown_spec (s : State) (pid : Nat)
    (he : ∀ e ∈ s.stock_entries, (e.product_id == pid) = false)
    (hl : ∀ l ∈ s.invoice_lines, (l.product_id == pid) = false)
    (hr : ∀ r ∈ s.return_lines, (r.product_id == pid) = false) :
    stock_summary_for_product s pid =
      { qte_entree := 0, qte_vendue := 0, stock_disponible := 0 } := by
  have h1 : qty_received s pid = 0 := by
    unfold qty_received
    rw [filter_eq_nil_of_none _ _ he]
    rfl
  have h2 : qty_sold_finalized s pid = 0 := by
    unfold qty_sold_finalized
    rw [filter_eq_nil_of_none _ _ (fun l hl' => by simp [hl l hl'])]
    rfl
  have h3 : qty_returned s pid = 0 := by
    unfold qty_returned
    rw [filter_eq_nil_of_none _ _ hr]
    rfl
  unfold stock_summary_for_product
  rw [h1, h2, h3]
  simp

/-- C10 witness: product id 99 occurs nowhere in `sampleState`, and its
stock summary is the all-zero record. -/
theorem stock_summary_unknown_spec_witness :
    stock_summary_for_product sampleState 99 =
      { qte_entree := 0, qte_vendue := 0, stock_disponible := 0 } :=
  stock_summary_unknown_spec sampleState 99 (by decide) (by decide) (by decide)

/-- C5: deleting a Client referenced by an Invoice or a Payment is
rejected with the state unchanged, and succeeds (removing the row) when
unreferenced; a Product referenced by an InvoiceLine or a StockEntry is
likewise protected; an Invoice referenced by a PaymentApplication is
protected, and on success its InvoiceLines and ReturnLines are
cascade-deleted with it. -/
theorem deletion_guards_spec (s : State) (cid pid iid : Nat) :
    (∀ c, findClient s cid = some c →
      ((s.factures.any (fun f => f.client_id == cid)
          || s.payments.any (fun p => p.client_id == cid)) = true →
        client_delete s cid = DeleteOutcome.rejected s)
      ∧ ((s.factures.any (fun f => f.client_id == cid)
          || s.payments.any (fun p => p.client_id == cid)) = false →
        client_delete s cid = DeleteOutcome.deleted
          { s with clients := s.clients.filter (fun x => x.id != cid) }))
    ∧ (∀ p, findProduct s pid = some p →
      ((s.invoice_lines.any (fun l => l.product_id == pid)
          || s.stock_entries.any (fun e => e.product_id == pid)) = true →
        product_delete s pid = DeleteOutcome.rejected s)
      ∧ ((s.invoice_lines.any (fun l => l.product_id == pid)
          || s.stock_entries.any (fun e => e.product_id == pid)) = false →
        product_delete s pid = DeleteOutcome.deleted
          { s with products := s.products.filter (fun x => x.id != pid) }))
    ∧ (∀ inv, findFacture s iid = some inv →
      (s.payment_applications.any (fun a => a.facture_id == iid) = true →
        invoice_delete s iid = DeleteOutcome.rejected s)
      ∧ (s.payment_applications.any (fun a => a.facture_id == iid) = false →
        invoice_delete s iid = DeleteOutcome.deleted
          { s with
            factures := s.factures.filter (fun x => x.id != iid)
            invoice_lines := s.invoice_lines.filter (fun l => l.facture_id != iid)
            return_lines := s.return_lines.filter (fun r => r.facture_id != iid) })) := by
  refine ⟨?_, ?_, ?_⟩
  · intro c hc
    have hcid : c.id = cid := by simpa using List.find?_some hc
    constructor <;> intro h <;>
      · simp only [client_delete, hc]
        simp only [hcid]
        rw [length_filter_ne_zero_eq_any, length_filter_ne_zero_eq_any]
        simp [h]
  · intro p hp
    have hpid : p.id = pid := by simpa using List.find?_some hp
    constructor <;> intro h <;>
      · simp only [product_delete, hp]
        simp only [hpid]
        rw [length_filter_ne_zero_eq_any, length_filter_ne_zero_eq_any]
        simp [h]
  · intro inv hinv
    have hiid : inv.id = iid := by simpa using List.find?_some hinv
    constructor <;> intro h <;>
      · simp only [invoice_delete, hinv]
        simp only [hiid]
        rw [length_filter_ne_zero_eq_any]
        simp [h]

/-- A database exercising every branch of the deletion guards: client 1,
product 1 and invoice 1 are referenced; client 2, product 2 and invoice 2
are not. -/
def guardState : State :=
  { clients := [{ id := 1, nom_client := "C1", tel := none, adresse := none,
                  ville := none },
                { id := 2, nom_client := "C2", tel := none, adresse := none,
                  ville := none }]
    products := [{ id := 1, ref_produit := "P1", nom_produit := "Prod1",
                   prix_achat := 5, prix_std := 10 },
                 { id := 2, ref_produit := "P2", nom_produit := "Prod2",
                   prix_achat := 1, prix_std := 2 }]
    stock_entries := [{ id := 1, product_id := 1, date := 0, qte_entree := 4 }]
    factures := [{ id := 1, numero := "F1", date_vente := 0, client_id := 1,
                   nbr_colis := 0, finalized := true },
                 { id := 2, numero := "F2", date_vente := 0, client_id := 1,
                   nbr_colis := 0, finalized := false }]
    invoice_lines := [{ id := 1, facture_id := 1, product_id := 1,
                        prix_vnt := 10, qte_vnd := 2 }]
    return_lines := [{ id := 1, facture_id := 2, product_id := 1,
                       prix_vnt := 10, qte_retour := 1, date := 0 }]
    payments := [{ id := 1, numero := "PM1", client_id := 1, date_pymt := 0,
                   montant_pymt := 200, banque := none, date_echeance := none }]
    payment_applications := [{ id := 1, payment_id := 1, facture_id := 1,
                               amount_applied := 50 }] }

/-- C5 witness: in `guardState`, deleting referenced client 1 / product 1 /
invoice 1 is rejected with the state kept, while unreferenced client 2 /
product 2 / invoice 2 are deleted (invoice 2's return line cascades away). -/
theorem deletion_guards_spec_witness :
    client_delete guardState 1 = DeleteOutcome.rejected guardState
    ∧ client_delete guardState 2 = DeleteOutcome.deleted
        { guardState with clients :=
            guardState.clients.filter (fun x => x.id != 2) }
    ∧ product_delete guardState 1 = DeleteOutcome.rejected guardState
    ∧ product_delete guardState 2 = DeleteOutcome.deleted
        { guardState with products :=
            guardState.products.filter (fun x => x.id != 2) }
    ∧ invoice_delete guardState 1 = DeleteOutcome.rejected guardState
    ∧ invoice_delete guardState 2 = DeleteOutcome.deleted
        { guardState with
          factures := guardState.factures.filter (fun x => x.id != 2)
          invoice_lines := guardState.invoice_lines.filter (fun l => l.facture_id != 2)
          return_lines := guardState.return_lines.filter (fun r => r.facture_id != 2) } :=
  ⟨((deletion_guards_spec guardState 1 1 1).1
      { id := 1, nom_client := "C1", tel := none, adresse := none, ville := none }
      rfl).1 (by decide),
   ((deletion_guards_spec guardState 2 2 2).1
      { id := 2, nom_client := "C2", tel := none, adresse := none, ville := none }
      rfl).2 (by decide),
   ((deletion_guards_spec guardState 1 1 1).2.1
      { id := 1, ref_produit := "P1", nom_produit := "Prod1", prix_achat := 5,
        prix_std := 10 }
      rfl).1 (by decide),
   ((deletion_guards_spec guardState 2 2 2).2.1
      { id := 2, ref_produit := "P2", nom_produit := "Prod2", prix_achat := 1,
        prix_std := 2 }
      rfl).2 (by decide),
   ((deletion_guards_spec guardState 1 1 1).2.2
      { id := 1, numero := "F1", date_vente := 0, client_id := 1, nbr_colis := 0,
        finalized := true }
      rfl).1 (by decide),
   ((deletion_guards_spec guardState 2 2 2).2.2
      { id := 2, numero := "F2", date_vente := 0, client_id := 1, nbr_colis := 0,
        finalized := false }
      rfl).2 (by decide)⟩

/-- C6: a create of a product, invoice or payment that hits a uniqueness
violation (duplicate reference code / invoice number / payment number) is
rolled back in full: the resulting state is the state before the attempt,
so every calculator's output is unchanged. -/
theorem uniqueness_rollback_spec (s : State) (pf : ProductForm) (today : Nat)
    (invf : InvoiceForm) (payf : PaymentForm) (cid pid : Nat) (pay : Payment)
    (f : Facture) :
    (s.products.any (fun p => p.ref_produit == pyStrip pf.ref_produit) = true →
      (products_post s pf today).1 = s
      ∧ client_balance (products_post s pf today).1 cid = client_balance s cid
      ∧ stock_summary_for_product (products_post s pf today).1 pid
          = stock_summary_for_product s pid
      ∧ payment_remaining (products_post s pf today).1 pay = payment_remaining s pay
      ∧ total_ttc (products_post s pf today).1 f TVA_RATE = total_ttc s f TVA_RATE)
    ∧ (s.factures.any (fun g => g.numero == pyStrip invf.numero) = true →
      (invoice_new_post s invf).1 = s
      ∧ client_balance (invoice_new_post s invf).1 cid = client_balance s cid
      ∧ stock_summary_for_product (invoice_new_post s invf).1 pid
          = stock_summary_for_product s pid
      ∧ payment_remaining (invoice_new_post s invf).1 pay = payment_remaining s pay
      ∧ total_ttc (invoice_new_post s invf).1 f TVA_RATE = total_ttc s f TVA_RATE)
    ∧ (s.payments.any (fun q => q.numero == payf.numero) = true →
      (payment_new_post s payf).1 = s
      ∧ client_balance (payment_new_post s payf).1 cid = client_balance s cid
      ∧ stock_summary_for_product (payment_new_post s payf).1 pid
          = stock_summary_for_product s pid
      ∧ payment_remaining (payment_new_post s payf).1 pay = payment_remaining s pay
      ∧ total_ttc (payment_new_post s payf).1 f TVA_RATE = total_ttc s f TVA_RATE) := by
  refine ⟨fun h => ?_, fun h => ?_, fun h => ?_⟩
  · have hs : (products_post s pf today).1 = s := by
      unfold products_post
      simp [h]
    exact ⟨hs, by rw [hs], by rw [hs], by rw [hs], by rw [hs]⟩
  · have hs : (invoice_new_post s invf).1 = s := by
      unfold invoice_new_post
      simp [h]
    exact ⟨hs, by rw [hs], by rw [hs], by rw [hs], by rw [hs]⟩
  · have hs : (payment_new_post s payf).1 = s := by
      unfold payment_new_post
      simp [h]
    exact ⟨hs, by rw [hs], by rw [hs], by rw [hs], by rw [hs]⟩

/-- C6 witness: in `sampleState`, re-creating reference code `P`, invoice
number `F1` or payment number `PM1` is rejected and leaves the state as it
was. -/
theorem uniqueness_rollback_spec_witness :
    (products_post sampleState
        { ref_produit := "P", nom_produit := "X", prix_achat := 1, prix_std := 2,
          qte_entree := 5, date_entry := none } 0).1 = sampleState
    ∧ (invoice_new_post sampleState
        { numero := "F1", date_vente := 0, client_id := 1, nbr_colis := 0 }).1
        = sampleState
    ∧ (payment_new_post sampleState
        { numero := "PM1", client_id := 1, date_pymt := 0, montant_pymt := 9,
          banque := none, date_echeance := none }).1 = sampleState :=
  ⟨((uniqueness_rollback_spec sampleState
      { ref_produit := "P", nom_produit := "X", prix_achat := 1, prix_std := 2,
        qte_entree := 5, date_entry := none } 0
      { numero := "F1", date_vente := 0, client_id := 1, nbr_colis := 0 }
      { numero := "PM1", client_id := 1, date_pymt := 0, montant_pymt := 9,
        banque := none, date_echeance := none } 1 1 samplePayment
      { id := 1, numero := "F1", date_vente := 0, client_id := 1, nbr_colis := 0,
        finalized := true }).1 (by decide)).1,
   ((uniqueness_rollback_spec sampleState
      { ref_produit := "P", nom_produit := "X", prix_achat := 1, prix_std := 2,
        qte_entree := 5, date_entry := none } 0
      { numero := "F1", date_vente := 0, client_id := 1, nbr_colis := 0 }
      { numero := "PM1", client_id := 1, date_pymt := 0, montant_pymt := 9,
        banque := none, date_echeance := none } 1 1 samplePayment
      { id := 1, numero := "F1", date_vente := 0, client_id := 1, nbr_colis := 0,
        finalized := true }).2.1 (by decide)).1,
   ((uniqueness_rollback_spec sampleState
      { ref_produit := "P", nom_produit := "X", prix_achat := 1, prix_std := 2,
        qte_entree := 5, date_entry := none } 0
      { numero := "F1", date_vente := 0, client_id := 1, nbr_colis := 0 }
      { numero := "PM1", client_id := 1, date_pymt := 0, montant_pymt := 9,
        banque := none, date_echeance := none } 1 1 samplePayment
      { id := 1, numero := "F1", date_vente := 0, client_id := 1, nbr_colis := 0,
        finalized := true }).2.2 (by decide)).1⟩

/-- C9: a successful product creation (no duplicate reference) commits the
product row, and exactly when the submitted received quantity is strictly
positive it also records exactly one StockEntry for the new product with
that quantity, dated with the given date or today; a zero or negative
quantity (the parse of an absent field) records no StockEntry. -/
theorem products_post_stock_entry_spec (s : State) (form : ProductForm)
    (today : Nat)
    (hdup : s.products.any (fun p => p.ref_produit == pyStrip form.ref_produit)
      = false) :
    ((products_post s form today).1.products = s.products ++
        [{ id := fresh_product_id s, ref_produit := pyStrip form.ref_produit,
           nom_produit := pyStrip form.nom_produit, prix_achat := form.prix_achat,
           prix_std := form.prix_std }]
      ∧ (products_post s form today).2 = true)
    ∧ (form.qte_entree > 0 →
        (products_post s form today).1.stock_entries = s.stock_entries ++
          [{ id := fresh_stock_entry_id s, product_id := fresh_product_id s,
             date := form.date_entry.getD today,
             qte_entree := form.qte_entree }])
    ∧ (form.qte_entree ≤ 0 →
        (products_post s form today).1.stock_entries = s.stock_entries) := by
  by_cases hq : form.qte_entree > 0
  · refine ⟨⟨?_, ?_⟩, fun _ => ?_, fun hle => absurd hq (not_lt.mpr hle)⟩ <;>
      · unfold products_post
        simp [hdup, hq, fresh_stock_entry_id]
  · refine ⟨⟨?_, ?_⟩, fun hgt => absurd hgt hq, fun _ => ?_⟩ <;>
      · unfold products_post
        simp [hdup, hq, fresh_stock_entry_id]

/-- C7: the invoice finalization state machine has the two states of the
Boolean flag; the explicit toggle action flips the flag of the targeted
invoice in either direction, changing nothing else (every other table and
every other invoice field is unchanged); and every route handler other
than the two explicit finalization actions preserves the flag of every
surviving invoice. -/
theorem invoice_finalize_machine_spec (s : State) (iid : Nat) (a : Action) :
    (∀ s', invoice_toggle_finalize s iid = some s' →
      s'.clients = s.clients ∧ s'.products = s.products
      ∧ s'.stock_entries = s.stock_entries
      ∧ s'.invoice_lines = s.invoice_lines
      ∧ s'.return_lines = s.return_lines
      ∧ s'.payments = s.payments
      ∧ s'.payment_applications = s.payment_applications
      ∧ s'.factures = s.factures.map (fun f =>
          if f.id == iid then { f with finalized := !f.finalized } else f))
    ∧ (is_explicit_finalize a = false →
        (s.factures.map Facture.id).Nodup →
        ∀ f f', f ∈ s.factures → f' ∈ (apply_action s a).factures →
          f'.id = f.id → f'.finalized = f.finalized) := by
  constructor
  · intro s' hs'
    unfold invoice_toggle_finalize at hs'
    split at hs'
    · exact Option.noConfusion hs'
    · cases hs'
      exact ⟨rfl, rfl, rfl, rfl, rfl, rfl, rfl, rfl⟩
  · intro hexp hnd f f' hf hf' hid
    cases a with
    | clientsPost form =>
        rw [show apply_action s (.clientsPost form) = clients_post s form from rfl,
          clients_post_factures] at hf'
        exact flag_of_mem_same hnd hf hf' hid
    | clientUpdate cid form =>
        rw [show apply_action s (.clientUpdate cid form) = client_update s cid form
            from rfl, client_update_factures] at hf'
        exact flag_of_mem_same hnd hf hf' hid
    | clientDelete cid =>
        rw [show apply_action s (.clientDelete cid) = (client_delete s cid).state s
            from rfl, client_delete_factures] at hf'
        exact flag_of_mem_same hnd hf hf' hid
    | productsPost form today =>
        rw [show apply_action s (.productsPost form today)
            = (products_post s form today).1 from rfl,
          products_post_factures] at hf'
        exact flag_of_mem_same hnd hf hf' hid
    | productUpdate pid form =>
        rw [show apply_action s (.productUpdate pid form)
            = (product_update s pid form).1 from rfl,
          product_update_factures] at hf'
        exact flag_of_mem_same hnd hf hf' hid
    | productDelete pid =>
        rw [show apply_action s (.productDelete pid) = (product_delete s pid).state s
            from rfl, product_delete_factures] at hf'
        exact flag_of_mem_same hnd hf hf' hid
    | stockEntryPost form =>
        rw [show apply_action s (.stockEntryPost form) = stock_entry_post s form
            from rfl, stock_entry_post_factures] at hf'
        exact flag_of_mem_same hnd hf hf' hid
    | invoiceNew form =>
        exact invoice_new_post_flag s form hnd hf hf' hid
    | invoiceUpdate iid2 form =>
        exact invoice_update_flag s iid2 form hnd hf hf' hid
    | invoiceDelete iid2 =>
        exact flag_of_mem_same hnd hf (invoice_delete_mem s iid2 hf') hid
    | invoiceToggleFinalize iid2 =>
        exact absurd hexp (by simp [is_explicit_finalize])
    | invoiceAddLine iid2 form =>
        rw [show apply_action s (.invoiceAddLine iid2 form)
            = invoice_add_line s iid2 form from rfl,
          invoice_add_line_factures] at hf'
        exact flag_of_mem_same hnd hf hf' hid
    | invoiceAddReturn iid2 form =>
        rw [show apply_action s (.invoiceAddReturn iid2 form)
            = invoice_add_return s iid2 form from rfl,
          invoice_add_return_factures] at hf'
        exact flag_of_mem_same hnd hf hf' hid
    | invoiceFinalizeAct iid2 =>
        exact absurd hexp (by simp [is_explicit_finalize])
    | paymentNew form =>
        rw [show apply_action s (.paymentNew form) = (payment_new_post s form).1
            from rfl, payment_new_post_factures] at hf'
        exact flag_of_mem_same hnd hf hf' hid
    | paymentApply pid form =>
        rw [show apply_action s (.paymentApply pid form) = payment_apply s pid form
            from rfl, payment_apply_factures] at hf'
        exact flag_of_mem_same hnd hf hf' hid

/-- The state reached from `sampleState` by toggling invoice 1. -/
def toggledSampleState : State :=
  { sampleState with factures := sampleState.factures.map (fun f =>
      if f.id == 1 then { f with finalized := !f.finalized } else f) }

/-- C7 witness: toggling invoice 1 of `sampleState` flips only its flag
(invoice 1 was finalized and becomes a draft), and the non-finalizing
action of adding an invoice line preserves invoice 2's flag. -/
theorem invoice_finalize_machine_spec_witness :
    (toggledSampleState.clients = sampleState.clients
      ∧ toggledSampleState.factures = sampleState.factures.map (fun f =>
          if f.id == 1 then { f with finalized := !f.finalized } else f))
    ∧ ({ id := 2, numero := "F2", date_vente := 0, client_id := 1,
         nbr_colis := 0, finalized := false } : Facture).finalized
        = ({ id := 2, numero := "F2", date_vente := 0, client_id := 1,
             nbr_colis := 0, finalized := false } : Facture).finalized :=
  ⟨⟨((invoice_finalize_machine_spec sampleState 1
        (Action.invoiceAddLine 1 { product_id := 1, prix_vnt := 3, qte_vnd := 2 })).1
        toggledSampleState rfl).1,
    ((invoice_finalize_machine_spec sampleState 1
        (Action.invoiceAddLine 1 { product_id := 1, prix_vnt := 3, qte_vnd := 2 })).1
        toggledSampleState rfl).2.2.2.2.2.2.2⟩,
   (invoice_finalize_machine_spec sampleState 1
      (Action.invoiceAddLine 1 { product_id := 1, prix_vnt := 3, qte_vnd := 2 })).2
     rfl (by decide)
     { id := 2, numero := "F2", date_vente := 0, client_id := 1, nbr_colis := 0,
       finalized := false }
     { id := 2, numero := "F2", date_vente := 0, client_id := 1, nbr_colis := 0,
       finalized := false }
     (by decide) (by decide) rfl⟩

/-- C9 witness: adding product `Q` to `sampleState` with received quantity
5 and no date on day 3 commits the product (id 2) and one stock entry of
quantity 5 dated 3; with quantity 0 no stock entry is recorded. -/
theorem products_post_stock_entry_spec_witness :
    (products_post sampleState
        { ref_produit := "Q", nom_produit := "N", prix_achat := 1, prix_std := 2,
          qte_entree := 5, date_entry := none } 3).1.stock_entries
      = sampleState.stock_entries ++
          [{ id := 2, product_id := 2, date := 3, qte_entree := 5 }]
    ∧ (products_post sampleState
        { ref_produit := "Q", nom_produit := "N", prix_achat := 1, prix_std := 2,
          qte_entree := 0, date_entry := none } 3).1.stock_entries
      = sampleState.stock_entries :=
  ⟨(products_post_stock_entry_spec sampleState
      { ref_produit := "Q", nom_produit := "N", prix_achat := 1, prix_std := 2,
        qte_entree := 5, date_entry := none } 3 (by decide)).2.1 (by decide),
   (products_post_stock_entry_spec sampleState
      { ref_produit := "Q", nom_produit := "N", prix_achat := 1, prix_std := 2,
        qte_entree := 0, date_entry := none } 3 (by decide)).2.2 (by decide)⟩

end Proxima
